import Mathlib

/-!
Shallow embedding of `pkg/subscriber/github/subscriber_item.go` from
`multicloud-operators-subscription`, together with theorems settling the
frozen claims about its reconciliation-cycle logic.

External collaborators (git transport, Kubernetes client, synchronizer,
status reporter, semver library, override engine) are modelled as data
supplied per cycle: each call site's outcome is a field of the input, and
the control flow around those outcomes is translated statement by
statement from the Go source.
-/

namespace SubGit

/-- Observable side effects of one reconciliation cycle: calls into the
synchronizer (`RegisterTemplate`, `AddValidResource`, `ApplyValiadtor`) and
into the status reporter (`SetInClusterPackageStatus` on a failure). -/
inductive Effect where
  | registerAttempt (nm : String)
  | statusFail (nm : String)
  | validated (nm : String)
  | applyValidator
  deriving Repr, DecidableEq

/-- Map lookup with Go's zero-value default: `m[k]` on a `map[string]string`
yields the empty string when the key is absent. -/
def lookupD (m : List (String × String)) (k : String) : String :=
  match m.find? (fun kv => kv.1 == k) with
  | some kv => kv.2
  | none => ""

/-- One file met by `subscribeResources` while walking a plain-resource
directory.  `apiVersion`/`kind` are the fields of the `kubeResource` probe
unmarshalled at lines 151-152; `subOutcome` abstracts the result of the
`subscribeResource` call (the deployable name on success, `none` when that
call returns an error and the loop does `continue`); `regOk` is the outcome
of the synchronizer's `RegisterTemplate` call for this deployable. -/
structure RscFile where
  isRegular : Bool
  ext : String
  apiVersion : String
  kind : String
  subOutcome : Option String
  regOk : Bool
  deriving Repr, DecidableEq

/-- ASCII lower-casing on character codes (the extensions compared by the
source are ASCII, so Go's Unicode folding coincides with this here). -/
def lowNat (n : Nat) : Nat :=
  if 65 ≤ n && n ≤ 90 then n + 32 else n

/-- Case-insensitive character comparison, on codes. -/
def charFoldEq (a b : Char) : Bool :=
  lowNat a.toNat == lowNat b.toNat

/-- `strings.EqualFold` (Go): case-insensitive string equality. -/
def equalFold (a b : String) : Bool :=
  a.data.length == b.data.length && (a.data.zip b.data).all (fun cc => charFoldEq cc.1 cc.2)

/-- `strings.HasPrefix(s, p)` (Go): does `s` start with `p`. -/
def goHasPre (s p : String) : Bool :=
  p.data.isPrefixOf s.data

/-- Extension test of line 147: `strings.EqualFold(filepath.Ext(name), ".yml")
|| strings.EqualFold(filepath.Ext(name), ".yaml")`. -/
def extOK (e : String) : Bool :=
  equalFold e ".yml" || equalFold e ".yaml"

/-- The per-file loop body of `subscribeResources` (lines 143-196).  Returns
the effects emitted and whether the pass aborted early: on a
`RegisterTemplate` error the Go code sets the package status, records the
package, and `return`s from `subscribeResources`, abandoning all remaining
files and directories. -/
def subResLoop : List RscFile → List Effect × Bool
  | [] => ([], false)
  | f :: rest =>
    if f.isRegular && extOK f.ext then
      if f.apiVersion == "" || f.kind == "" then
        subResLoop rest
      else
        match f.subOutcome with
        | none => subResLoop rest
        | some nm =>
          if f.regOk then
            let r := subResLoop rest
            (.registerAttempt nm :: .validated nm :: r.1, r.2)
          else
            ([.registerAttempt nm, .statusFail nm], true)
    else subResLoop rest

/-- `subscribeResources` (lines 130-200): runs the file loop over all
plain-resource directories (flattened here into one file list; the Go map
iteration order is unspecified and the early `return` cuts across directory
boundaries the same way), then calls `ApplyValiadtor` — unless the loop
returned early on a registration failure, in which case line 181's `return`
skips line 199. -/
def subscribeResources (files : List RscFile) : List Effect :=
  let r := subResLoop files
  if r.2 then r.1 else r.1 ++ [.applyValidator]

/-- Outcome of the `LocalClient.Get` call for the package's HelmRelease
(line 346): found (nil error), not-found (the create branch), or any other
error (line 385-386: log and `break`). -/
inductive GetOut where
  | found
  | notFound
  | otherErr
  deriving Repr, DecidableEq

/-- Error values `subscribeHelmCharts` can return through its named return
`err`: the stale `Get` error left in `err` by the last loop iteration, the
override error returned at line 414, or the final status-validation error. -/
inductive HErr where
  | getNotFound
  | getOther
  | overrideFailed
  | validateFailed
  deriving Repr, DecidableEq

/-- How the package loop of `subscribeHelmCharts` ended: it ran to
completion (`break` included) with the named return `err` holding the last
`Get` outcome, or it returned early with the override error (line 414). -/
inductive LoopExit where
  | finished (outer : Option HErr)
  | earlyReturn (e : HErr)
  deriving Repr, DecidableEq

/-- One entry of the filtered index as consumed by `subscribeHelmCharts`:
the package name, the chosen (first) chart version, and the outcomes of the
external calls made for it: the HelmRelease `Get`, the `override` call, the
`json.Marshal` of the wrapper deployable, and `RegisterTemplate`. -/
structure ChartPkg where
  name : String
  version : String
  getOut : GetOut
  overrideOk : Bool
  marshalOk : Bool
  regOk : Bool
  deriving Repr, DecidableEq

/-- Deployable name for a chart package (lines 419/422):
channel-or-subscription name + package name + version. -/
def dplChartName (nm : String) (p : ChartPkg) : String :=
  nm ++ "-" ++ p.name ++ "-" ++ p.version

/-- The package loop of `subscribeHelmCharts` (lines 339-457), threading the
function's named return `err` (assigned only by line 346's `Get`; the
`err := ghsi.override(...)` at line 410 shadows it inside the loop body).
On `Get` other-error: `break` (loop ends, `err` keeps that error).  On
override failure: `return err` (early return, line 414).  On marshal
failure: `continue` (line 431).  On registration failure: status is set and
the loop continues (lines 438-450). -/
def chartsLoop (nm : String) : List ChartPkg → Option HErr → List Effect × LoopExit
  | [], outer => ([], .finished outer)
  | p :: rest, _ =>
    let outer : Option HErr :=
      match p.getOut with
      | .found => none
      | .notFound => some .getNotFound
      | .otherErr => some .getOther
    match p.getOut with
    | .otherErr => ([], .finished outer)
    | _ =>
      if p.overrideOk then
        if p.marshalOk then
          if p.regOk then
            let r := chartsLoop nm rest outer
            (.registerAttempt (dplChartName nm p) :: r.1, r.2)
          else
            let r := chartsLoop nm rest outer
            (.registerAttempt (dplChartName nm p) :: .statusFail (dplChartName nm p) :: r.1, r.2)
        else chartsLoop nm rest outer
      else ([], .earlyReturn .overrideFailed)

/-- `subscribeHelmCharts` (lines 334-469).  After the loop, lines 459-466:
if the first `ValidatePackagesInSubscriptionStatus` call fails, the
subscription is re-fetched and the validation retried, and its result
becomes the returned `err`; otherwise the named return `err` — last set by
the final loop iteration's `Get` — is returned as-is. -/
def subscribeHelmCharts (nm : String) (validate1Fails validate2Err : Bool)
    (pkgs : List ChartPkg) : List Effect × Option HErr :=
  match chartsLoop nm pkgs none with
  | (es, .earlyReturn e) => (es, some e)
  | (es, .finished outer) =>
    if validate1Fails then
      (es, if validate2Err then some .validateFailed else none)
    else (es, outer)

/-- Inputs of one reconciliation cycle: the outcome of `cloneGitRepo`
(`none` = clone error), of `sortClonedGitRepo` (`sortOk = false` = error),
the plain-resource files and filtered chart packages the sort produced, the
channel-or-subscription name used in deployable names, and the outcomes of
the final status-validation calls of the chart pass. -/
structure CycleEnv where
  clone : Option String
  sortOk : Bool
  files : List RscFile
  pkgs : List ChartPkg
  chanName : String
  validate1Fails : Bool
  validate2Err : Bool
  deriving Repr

/-- `doSubscription` (lines 99-128): clone; if the fetched commit differs
from the stored one, sort, run the resource pass (whose return value does
not exist — the Go function returns nothing), run the chart pass, and store
the new commit only when the chart pass returned a nil error.  Returns the
new stored commit identifier and the effects of the cycle. -/
def doSubscription (env : CycleEnv) (commitID : String) : String × List Effect :=
  match env.clone with
  | none => (commitID, [])
  | some newID =>
    if newID != commitID then
      if env.sortOk then
        let es1 := subscribeResources env.files
        let r2 := subscribeHelmCharts env.chanName env.validate1Fails env.validate2Err env.pkgs
        match r2.2 with
        | some _ => (commitID, es1 ++ r2.1)
        | none => (newID, es1 ++ r2.1)
      else (commitID, [])
    else (commitID, [])

/-- `Subscription.Spec.PackageFilter` (a nilable pointer in Go): optional
semver range `Version` (empty string = not declared), optional annotation
equality map, an opaque label-selector token (consumed only through the
external `utils.LabelChecker`), and the optional `FilterRef` config-map
reference read at line 554. -/
structure PackageFilter where
  version : String
  annots : Option (List (String × String))
  labelSelector : Option String
  filterRef : Option String
  deriving Repr, DecidableEq

/-- The fields of `Subscription.Spec` the subscriber reads: the exact
package name (`Package`, empty = not declared) and the optional
`PackageFilter`. -/
structure SubscriptionSpec where
  package : String
  packageFilter : Option PackageFilter
  deriving Repr, DecidableEq

/-- The subscription object as read by the subscriber item (`ghsi.Subscription`
is a nilable pointer; call sites below take `Option Subscription`). -/
structure Subscription where
  spec : SubscriptionSpec
  deriving Repr, DecidableEq

/-- The parsed resource document as `checkFilters` reads it through the
unstructured accessors: name, labels, annotations (Go's nil annotation map
and the explicit nil-to-empty coercion at lines 308-310 coincide with the
empty list here, since lookups default to the empty string either way). -/
structure Rsc where
  name : String
  labels : List (String × String)
  annots : List (String × String)
  deriving Repr, DecidableEq

/-- `checkFilters` (lines 282-332), called only under the guard
`Subscription.Spec.PackageFilter != nil` (line 239), so it receives the
filter directly.  `lc` stands for the external `utils.LabelChecker`.
Returns the error message, empty on acceptance; the three predicates run in
order (name, labels, annotations) and the first failure returns. -/
def checkFilters (lc : Option String → List (String × String) → Bool)
    (pkg : String) (pf : PackageFilter) (rsc : Rsc) : String :=
  if pkg != "" && pkg != rsc.name then
    "Name does not match, skiping:" ++ pkg ++ "|" ++ rsc.name
  else if !(lc pf.labelSelector rsc.labels) then
    "Failed to pass label check on resource " ++ rsc.name
  else
    match pf.annots with
    | none => ""
    | some anns =>
      if anns.all (fun kv => lookupD rsc.annots kv.1 == kv.2) then ""
      else "Failed to pass annotation check to deployable " ++ rsc.name

/-- One `repo.ChartVersion` record of the helm index: chart name, version
string, and the declared tiller-version string (empty = not declared). -/
structure ChartVersionRec where
  name : String
  version : String
  tillerVersion : String
  deriving Repr, DecidableEq

/-- The helm index `Entries` map, as an association list (the Go map is
iterated over a snapshot of its keys and each key is handled
independently, so order carries no meaning). -/
abbrev Entries := List (String × List ChartVersionRec)

/-- `checkTillerVersion` (lines 778-808).  `pr`/`pv` stand for the external
`semver.ParseRange`/`semver.Parse` over an abstract version type `α`
(`none` = parse error).  Note the Go control flow: when the subscription
declares a `tillerVersion` annotation but the record's tiller-version
string is empty, every `if` falls through and the function returns `true`;
and the record's tiller string is parsed as the RANGE while the declared
filter value is parsed as the version it must accept. -/
def checkTillerVersion {α : Type} (pr : String → Option (α → Bool))
    (pv : String → Option α) (sub : Option Subscription) (cv : ChartVersionRec) : Bool :=
  match sub with
  | none => true
  | some s =>
    match s.spec.packageFilter with
    | none => true
    | some pf =>
      match pf.annots with
      | none => true
      | some anns =>
        match (anns.find? (fun kv => kv.1 == "tillerVersion")).map (fun kv => kv.2) with
        | none => true
        | some fv =>
          if cv.tillerVersion != "" then
            match pr cv.tillerVersion with
            | none => false
            | some rng =>
              match pv fv with
              | none => false
              | some v => rng v
          else true

/-- `checkVersion` (lines 811-838): when the filter declares a non-empty
`Version` range, parse the record's version and the declared range; either
parse failure rejects the record; otherwise test the range. -/
def checkVersion {α : Type} (pr : String → Option (α → Bool))
    (pv : String → Option α) (sub : Option Subscription) (cv : ChartVersionRec) : Bool :=
  match sub with
  | none => true
  | some s =>
    match s.spec.packageFilter with
    | none => true
    | some pf =>
      if pf.version != "" then
        match pv cv.version with
        | none => false
        | some v =>
          match pr pf.version with
          | none => false
          | some rng => rng v
      else true

/-- `filterOnVersion` (lines 727-751): per package, keep the records passing
both checks; replace the entry when at least one record remains, delete the
package otherwise. -/
def filterOnVersion {α : Type} (pr : String → Option (α → Bool))
    (pv : String → Option α) (sub : Option Subscription) (entries : Entries) : Entries :=
  entries.filterMap (fun kv =>
    let ncv := kv.2.filter (fun cv =>
      checkTillerVersion pr pv sub cv && checkVersion pr pv sub cv)
    if ncv.length > 0 then some (kv.1, ncv) else none)

/-- `removeNoMatchingName` (lines 754-775): with a subscription present and
a non-empty `Spec.Package`, delete every entry with a different key; with
an empty `Spec.Package`, return an error leaving the entries untouched
(the Bool is the errored flag); with no subscription, do nothing. -/
def removeNoMatchingName (sub : Option Subscription) (entries : Entries) : Entries × Bool :=
  match sub with
  | none => (entries, false)
  | some s =>
    if s.spec.package != "" then
      (entries.filter (fun kv => kv.1 == s.spec.package), false)
    else (entries, true)

/-- `filterCharts` (lines 711-722): name filter first; on its error return
immediately (so `filterOnVersion` never runs and the index is unchanged —
the caller `sortClonedGitRepo` only logs a warning at line 635 and keeps
using the index); otherwise run the version/tiller filter. -/
def filterCharts {α : Type} (pr : String → Option (α → Bool))
    (pv : String → Option α) (sub : Option Subscription) (entries : Entries) : Entries × Bool :=
  let r := removeNoMatchingName sub entries
  if r.2 then (r.1, true)
  else (filterOnVersion pr pv sub r.1, false)

/-- One directory met by the `filepath.Walk` of `sortClonedGitRepo`
(lines 583-603), in the walk's lexical depth-first order; `hasChart` is the
`os.Stat(path + "/Chart.yaml")` probe. -/
structure WalkDir where
  path : String
  hasChart : Bool
  deriving Repr, DecidableEq

/-- Loop body of the walk callback for a directory: a chart manifest makes
the directory a chart root unless its path extends the most recent chart
root; otherwise the directory is a plain-resource directory unless it
extends the most recent chart root or the `.git` metadata tree. -/
def classifyStep (repoRoot : String) (st : String × List String × List String)
    (d : WalkDir) : String × List String × List String :=
  let cur := st.1
  if d.hasChart then
    if !(goHasPre d.path cur) then
      (d.path ++ "/", st.2.1 ++ [d.path ++ "/"], st.2.2)
    else st
  else
    if !(goHasPre d.path cur) && !(goHasPre d.path (repoRoot ++ "/.git")) then
      (cur, st.2.1, st.2.2 ++ [d.path ++ "/"])
    else st

/-- The classification pass of `sortClonedGitRepo` (lines 567-603): fold
the walk callback over the directories with `currentChartDir` starting at
`"NONE"`; yields (chart directories, plain-resource directories). -/
def sortClonedGitRepoClassify (repoRoot : String) (dirs : List WalkDir) :
    List String × List String :=
  let st := dirs.foldl (classifyStep repoRoot) ("NONE", [], [])
  (st.2.1, st.2.2)

/-- Go runtime panic outcomes surfaced by the embedding. -/
inductive GoPanic where
  | nilPointerDeref
  deriving Repr, DecidableEq

/-- First step of `sortClonedGitRepo` (line 554): the expression
`ghsi.Subscription.Spec.PackageFilter.FilterRef` reads the `FilterRef`
field through the `PackageFilter` pointer before any nil check on
`PackageFilter` itself, so a subscription without a package filter panics
with a nil-pointer dereference; otherwise the read yields the filter
reference. -/
def sortClonedGitRepoFilterRef (sub : Subscription) : Except GoPanic (Option String) :=
  match sub.spec.packageFilter with
  | none => .error .nilPointerDeref
  | some pf => .ok pf.filterRef

/-- Whether an effect is a `RegisterTemplate` call. -/
def isRegisterAttempt : Effect → Bool
  | .registerAttempt _ => true
  | _ => false

/-- Number of `RegisterTemplate` calls among a cycle's effects. -/
def regCount (es : List Effect) : Nat :=
  (es.filter isRegisterAttempt).length

/-- The declared semver range of the version filter: present when the
subscription and its package filter exist and `Version` is non-empty. -/
def declaredVersionRange (sub : Option Subscription) : Option String :=
  match sub with
  | none => none
  | some s =>
    match s.spec.packageFilter with
    | none => none
    | some pf => if pf.version != "" then some pf.version else none

/-- The declared tiller-version value: present when the subscription, the
package filter, its annotation map and the `tillerVersion` key all exist. -/
def declaredTillerRange (sub : Option Subscription) : Option String :=
  match sub with
  | none => none
  | some s =>
    match s.spec.packageFilter with
    | none => none
    | some pf =>
      match pf.annots with
      | none => none
      | some anns => (anns.find? (fun kv => kv.1 == "tillerVersion")).map (fun kv => kv.2)

/-- Keep-predicate written from claim C4's words, for refinement
comparison with the code: keep a record iff ((no version-range constraint
declared) OR (the record's version satisfies the declared range)) AND
((no tiller constraint declared) OR (the record DECLARES a tiller-version
AND that tiller-version satisfies the declared tiller-version range)); a
parse failure on either side of a comparison excludes the record. -/
def claimKeepsRecord {α : Type} (pr : String → Option (α → Bool))
    (pv : String → Option α) (sub : Option Subscription) (cv : ChartVersionRec) : Bool :=
  let verOK :=
    match declaredVersionRange sub with
    | none => true
    | some d =>
      match pr d, pv cv.version with
      | some rng, some v => rng v
      | _, _ => false
  let tillerOK :=
    match declaredTillerRange sub with
    | none => true
    | some d =>
      cv.tillerVersion != "" &&
        (match pr d, pv cv.tillerVersion with
         | some rng, some v => rng v
         | _, _ => false)
  verOK && tillerOK

/-- Version half of the amended C4 keep-predicate, as the claim words it:
no declared range keeps the record; a declared range keeps it iff both
sides parse and the record's version satisfies the range. -/
def verKeepOK {α : Type} (pr : String → Option (α → Bool))
    (pv : String → Option α) (sub : Option Subscription) (cv : ChartVersionRec) : Bool :=
  match declaredVersionRange sub with
  | none => true
  | some d =>
    match pr d, pv cv.version with
    | some rng, some v => rng v
    | _, _ => false

/-- Tiller half of the amended C4 keep-predicate, written from the code's
actual behavior: no declared constraint keeps the record; under a declared
constraint a record that declares NO tiller-version is also kept; when both
sides are present the record's tiller string is parsed as the RANGE and the
declared filter value as the version it must accept (roles swapped relative
to the claim), a parse failure on either side excluding the record. -/
def tillerKeepOK {α : Type} (pr : String → Option (α → Bool))
    (pv : String → Option α) (sub : Option Subscription) (cv : ChartVersionRec) : Bool :=
  match declaredTillerRange sub with
  | none => true
  | some d =>
    if cv.tillerVersion == "" then true
    else
      match pr cv.tillerVersion, pv d with
      | some rng, some v => rng v
      | _, _ => false

/-- Keep-predicate of the amended claim C4: the tiller half (with the
no-tiller-version records kept and the parse roles swapped) conjoined with
the version half as the claim words it. -/
def amendedKeepsRecord {α : Type} (pr : String → Option (α → Bool))
    (pv : String → Option α) (sub : Option Subscription) (cv : ChartVersionRec) : Bool :=
  tillerKeepOK pr pv sub cv && verKeepOK pr pv sub cv

/-- Predicate written from claim C5's words: a parsed document proceeds
into the deployable-conversion pipeline unless it lacks BOTH the
API-group/version marker and the kind marker. -/
def claimProceedsToPipeline (apiVersion kind : String) : Bool :=
  !(apiVersion == "" && kind == "")

/-- C8: on the claim's concrete tree — `/root` without a chart manifest,
`/root/.git` metadata, `/root/a` with a manifest, `/root/a/b` with a
manifest nested under `/root/a`, visited in the walk's lexical order — the
classifier records exactly `/root/a/` as a chart root (not `/root/a/b`,
not `/root/.git`) and exactly `/root/` as a plain-resource directory. -/
theorem classifier_nested_chart_and_metadata :
    sortClonedGitRepoClassify "/root"
      [⟨"/root", false⟩, ⟨"/root/.git", false⟩, ⟨"/root/a", true⟩, ⟨"/root/a/b", true⟩] =
      (["/root/a/"], ["/root/"]) := by
  decide

/-- C10: `sortClonedGitRepo` reads `Subscription.Spec.PackageFilter.FilterRef`
before any nil check on `PackageFilter`, so every subscription whose
package filter is absent makes the cycle dereference a nil pointer at the
classification step instead of treating the absent filter as match-all. -/
theorem sort_requires_packageFilter (sub : Subscription)
    (h : sub.spec.packageFilter = none) :
    sortClonedGitRepoFilterRef sub = .error .nilPointerDeref := by
  simp [sortClonedGitRepoFilterRef, h]

/-- Witness for `sort_requires_packageFilter` at a concrete subscription
with no package filter. -/
theorem sort_requires_packageFilter_witness :
    sortClonedGitRepoFilterRef ⟨⟨"demo", none⟩⟩ = .error .nilPointerDeref :=
  sort_requires_packageFilter ⟨⟨"demo", none⟩⟩ rfl

/-- Counterexample to C5 as stated: a document carrying an API-version
marker but no kind marker should, per the claim, proceed into the
deployable-conversion pipeline; the code instead skips it (the guard at
line 158 is a disjunction), so the resource pass performs no conversion
and no registration for it — the cycle's only effect is the final
`ApplyValiadtor`. -/
theorem doc_with_one_marker_skipped :
    claimProceedsToPipeline "v1" "" = true ∧
    subscribeResources [⟨true, ".yaml", "v1", "", some "n", true⟩] = [.applyValidator] := by
  exact ⟨rfl, by decide⟩

/-- C5 amended: a parsed manifest document is skipped silently when it
lacks the API-group/version marker OR the kind marker; only a document
carrying BOTH markers proceeds into the deployable-conversion pipeline
(shown here on a regular `.yaml` file whose conversion and registration
succeed). -/
theorem doc_marker_guard (av kd nm : String) :
    subscribeResources [⟨true, ".yaml", av, kd, some nm, true⟩] =
      (if av == "" || kd == "" then [.applyValidator]
       else [.registerAttempt nm, .validated nm, .applyValidator]) := by
  have he : extOK ".yaml" = true := by decide
  by_cases h : (av == "" || kd == "") = true
  · simp [subscribeResources, subResLoop, he, h]
  · simp [subscribeResources, subResLoop, he, h]

/-- Counterexample to C2 as stated: with two packages in the filtered
index, an override failure on the first is NOT fatal to that package only —
the chart pass returns the error immediately and the second package is
never processed (no effects at all), even though the second package alone
registers fine. -/
theorem override_failure_aborts_pass :
    subscribeHelmCharts "ch" false false
      [⟨"p1", "1.0.0", .found, false, true, true⟩, ⟨"p2", "1.0.0", .found, true, true, true⟩] =
      ([], some .overrideFailed) ∧
    subscribeHelmCharts "ch" false false [⟨"p2", "1.0.0", .found, true, true, true⟩] =
      ([.registerAttempt "ch-p2-1.0.0"], none) :=
  ⟨rfl, rfl⟩

/-- C2 amended: in the chart pass, an override failure on a package aborts
the ENTIRE pass — `subscribeHelmCharts` returns that error and no later
package of the index is processed — whereas a marshal failure on the
wrapper deployable is fatal to that package only and the loop continues
with the remaining packages. -/
theorem override_vs_marshal_failure (nm : String) (p : ChartPkg)
    (rest : List ChartPkg) (o : Option HErr) :
    (p.getOut ≠ .otherErr → p.overrideOk = false →
      chartsLoop nm (p :: rest) o = ([], .earlyReturn .overrideFailed)) ∧
    (p.getOut = .found → p.overrideOk = true → p.marshalOk = false →
      chartsLoop nm (p :: rest) o = chartsLoop nm rest none) := by
  constructor
  · intro hg ho
    cases hgo : p.getOut
    · simp [chartsLoop, hgo, ho]
    · simp [chartsLoop, hgo, ho]
    · exact absurd hgo hg
  · intro hg ho hm
    simp [chartsLoop, hg, ho, hm]

/-- Witness for `override_vs_marshal_failure`: both implications applied at
concrete packages in front of a concrete healthy package. -/
theorem override_vs_marshal_failure_witness :
    chartsLoop "ch" [⟨"p1", "1", .found, false, true, true⟩, ⟨"p2", "1", .found, true, true, true⟩] none =
      ([], .earlyReturn .overrideFailed) ∧
    chartsLoop "ch" [⟨"p1", "1", .found, true, false, true⟩, ⟨"p2", "1", .found, true, true, true⟩] none =
      chartsLoop "ch" [⟨"p2", "1", .found, true, true, true⟩] none :=
  ⟨(override_vs_marshal_failure "ch" ⟨"p1", "1", .found, false, true, true⟩ _ none).1
      (by decide) rfl,
    (override_vs_marshal_failure "ch" ⟨"p1", "1", .found, true, false, true⟩ _ none).2
      rfl rfl rfl⟩

/-- Composition of the resource-pass file loop: as long as the loop has not
aborted on the first files, the remaining files are processed after them. -/
theorem subResLoop_append (pre rest : List RscFile) (h : (subResLoop pre).2 = false) :
    subResLoop (pre ++ rest) = ((subResLoop pre).1 ++ (subResLoop rest).1, (subResLoop rest).2) := by
  induction pre with
  | nil => simp [subResLoop]
  | cons f fs ih =>
    cases hg : (f.isRegular && extOK f.ext) with
    | false =>
      simp [subResLoop, hg] at h ⊢
      exact ih h
    | true =>
      cases hm : (f.apiVersion == "" || f.kind == "") with
      | true =>
        simp [subResLoop, hg, hm] at h ⊢
        exact ih h
      | false =>
        cases hs : f.subOutcome with
        | none =>
          simp [subResLoop, hg, hm, hs] at h ⊢
          exact ih h
        | some nm =>
          cases hr : f.regOk with
          | false => simp [subResLoop, hg, hm, hs, hr] at h
          | true =>
            simp [subResLoop, hg, hm, hs, hr] at h ⊢
            simp [ih h]

/-- Counterexample to C1 as stated: a cycle whose resource pass hits a
registration failure (the pass aborts, conjunct one) nevertheless advances
the stored commit identifier from the empty string to the fetched hash
(conjunct two), because `subscribeResources` returns nothing and only the
chart pass's error gates the update. -/
theorem commit_advances_after_resource_failure :
    (subResLoop [⟨true, ".yaml", "v1", "ConfigMap", some "n", false⟩]).2 = true ∧
    doSubscription ⟨some "h", true, [⟨true, ".yaml", "v1", "ConfigMap", some "n", false⟩],
        [], "ch", false, false⟩ "" =
      ("h", [.registerAttempt "n", .statusFail "n"]) := by
  exact ⟨by decide, by decide⟩

/-- C1 amended: the stored commit identifier changes only when the clone
returned a fresh identifier, `sortClonedGitRepo` succeeded, and the CHART
pass (`subscribeHelmCharts`) returned a nil error — and then it becomes the
fetched identifier.  The resource pass returns nothing, so its failures
(including an aborting registration failure) do not gate the update. -/
theorem commit_update_conditions (env : CycleEnv) (c : String)
    (h : (doSubscription env c).1 ≠ c) :
    ∃ hsh, env.clone = some hsh ∧ env.sortOk = true ∧
      (subscribeHelmCharts env.chanName env.validate1Fails env.validate2Err env.pkgs).2 = none ∧
      (doSubscription env c).1 = hsh := by
  cases hc : env.clone with
  | none => simp [doSubscription, hc] at h
  | some newID =>
    cases hne : (newID != c) with
    | false => simp [doSubscription, hc, hne] at h
    | true =>
      cases hs : env.sortOk with
      | false => simp [doSubscription, hc, hne, hs] at h
      | true =>
        cases hh : (subscribeHelmCharts env.chanName env.validate1Fails env.validate2Err env.pkgs).2 with
        | some e =>
          exfalso
          apply h
          simp [doSubscription, hc, hne, hs, hh]
        | none =>
          exact ⟨newID, rfl, rfl, rfl, by simp [doSubscription, hc, hne, hs, hh]⟩

/-- Witness for `commit_update_conditions` at a concrete fully successful
cycle starting from an empty stored identifier. -/
theorem commit_update_conditions_witness :
    ∃ hsh, (⟨some "h", true, [], [], "ch", false, false⟩ : CycleEnv).clone = some hsh ∧
      (⟨some "h", true, [], [], "ch", false, false⟩ : CycleEnv).sortOk = true ∧
      (subscribeHelmCharts "ch" false false []).2 = none ∧
      (doSubscription ⟨some "h", true, [], [], "ch", false, false⟩ "").1 = hsh :=
  commit_update_conditions ⟨some "h", true, [], [], "ch", false, false⟩ "" (by decide)

/-- C3: a registration failure in the resource pass marks the package
failed in subscription status and aborts the remainder of the pass (nothing
after the failing file runs, not even `ApplyValiadtor`), while in the chart
pass a registration failure records a package status failure and the loop
continues with the next package. -/
theorem registration_failure_asymmetry (pre rest : List RscFile) (f : RscFile)
    (nm cn : String) (p : ChartPkg) (qs : List ChartPkg) (o : Option HErr) :
    ((f.isRegular && extOK f.ext) = true → (f.apiVersion == "" || f.kind == "") = false →
      f.subOutcome = some nm → f.regOk = false → (subResLoop pre).2 = false →
      subscribeResources (pre ++ f :: rest) =
        (subResLoop pre).1 ++ [.registerAttempt nm, .statusFail nm]) ∧
    (p.getOut = .found → p.overrideOk = true → p.marshalOk = true → p.regOk = false →
      chartsLoop cn (p :: qs) o =
        (.registerAttempt (dplChartName cn p) :: .statusFail (dplChartName cn p) ::
          (chartsLoop cn qs none).1, (chartsLoop cn qs none).2)) := by
  constructor
  · intro hg hm hs hr hpre
    have hf : subResLoop (f :: rest) = ([.registerAttempt nm, .statusFail nm], true) := by
      simp [subResLoop, hg, hm, hs, hr]
    have := subResLoop_append pre (f :: rest) hpre
    rw [hf] at this
    simp [subscribeResources, this]
  · intro hgo ho hm hr
    simp [chartsLoop, hgo, ho, hm, hr]

/-- Witness for `registration_failure_asymmetry`: both conclusions applied
at concrete inputs — a failing file preceded by a healthy file, and a
registration-failing chart package followed by a healthy package. -/
theorem registration_failure_asymmetry_witness :
    subscribeResources [⟨true, ".yaml", "v1", "ConfigMap", some "a", true⟩,
        ⟨true, ".yaml", "v1", "ConfigMap", some "n", false⟩,
        ⟨true, ".yaml", "v1", "ConfigMap", some "z", true⟩] =
      (subResLoop [⟨true, ".yaml", "v1", "ConfigMap", some "a", true⟩]).1 ++
        [.registerAttempt "n", .statusFail "n"] ∧
    chartsLoop "ch" [⟨"p1", "1", .found, true, true, false⟩, ⟨"p2", "1", .found, true, true, true⟩] none =
      (.registerAttempt (dplChartName "ch" ⟨"p1", "1", .found, true, true, false⟩) ::
        .statusFail (dplChartName "ch" ⟨"p1", "1", .found, true, true, false⟩) ::
        (chartsLoop "ch" [⟨"p2", "1", .found, true, true, true⟩] none).1,
        (chartsLoop "ch" [⟨"p2", "1", .found, true, true, true⟩] none).2) :=
  ⟨(registration_failure_asymmetry [⟨true, ".yaml", "v1", "ConfigMap", some "a", true⟩]
      [⟨true, ".yaml", "v1", "ConfigMap", some "z", true⟩]
      ⟨true, ".yaml", "v1", "ConfigMap", some "n", false⟩ "n" "ch"
      ⟨"p1", "1", .found, true, true, false⟩ [] none).1
      (by decide) (by decide) rfl rfl (by decide),
    (registration_failure_asymmetry [] [] ⟨true, ".yaml", "v1", "ConfigMap", some "n", false⟩
      "n" "ch" ⟨"p1", "1", .found, true, true, false⟩
      [⟨"p2", "1", .found, true, true, true⟩] none).2 rfl rfl rfl rfl⟩

/-- Counterexample to C6 as stated: the first cycle observes hash `h` but
fails in the sort step (stored identifier stays empty); the second
consecutive cycle observes the SAME hash `h`, yet it does not end after the
fetch — it performs one registration call. -/
theorem same_hash_after_failed_cycle_reprocesses :
    doSubscription ⟨some "h", false, [], [], "ch", false, false⟩ "" = ("", []) ∧
    regCount (doSubscription ⟨some "h", true,
        [⟨true, ".yaml", "v1", "ConfigMap", some "n", true⟩], [], "ch", false, false⟩
      (doSubscription ⟨some "h", false, [], [], "ch", false, false⟩ "").1).2 = 1 := by
  exact ⟨by decide, by decide⟩

/-- C6 amended: when the first of two consecutive cycles leaves the stored
identifier equal to the hash the second cycle fetches — in particular after
a first cycle that completed without fatal error and committed that hash —
the second cycle ends immediately after the fetch: no effects at all (hence
zero registration calls) and no state change. -/
theorem unchanged_commit_skips_cycle (env1 env2 : CycleEnv) (c h : String)
    (h1 : (doSubscription env1 c).1 = h) (h2 : env2.clone = some h) :
    doSubscription env2 (doSubscription env1 c).1 = (h, []) := by
  rw [h1]
  simp [doSubscription, h2]

/-- Witness for `unchanged_commit_skips_cycle`: a successful first cycle
commits `"h"`; the second cycle fetches `"h"` again and is a no-op even
though it has a registrable file in hand. -/
theorem unchanged_commit_skips_cycle_witness :
    doSubscription ⟨some "h", true, [⟨true, ".yaml", "v1", "ConfigMap", some "n", true⟩],
        [], "ch", false, false⟩
      (doSubscription ⟨some "h", true, [], [], "ch", false, false⟩ "").1 = ("h", []) :=
  unchanged_commit_skips_cycle ⟨some "h", true, [], [], "ch", false, false⟩
    ⟨some "h", true, [⟨true, ".yaml", "v1", "ConfigMap", some "n", true⟩], [], "ch", false, false⟩
    "" "h" (by decide) rfl

/-- The code's version check coincides with the version half of the
amended keep-predicate. -/
theorem checkVersion_eq_verKeepOK {α : Type} (pr : String → Option (α → Bool))
    (pv : String → Option α) (sub : Option Subscription) (cv : ChartVersionRec) :
    checkVersion pr pv sub cv = verKeepOK pr pv sub cv := by
  cases sub with
  | none => rfl
  | some s =>
    cases hpf : s.spec.packageFilter with
    | none => simp [checkVersion, verKeepOK, declaredVersionRange, hpf]
    | some pf =>
      simp only [checkVersion, verKeepOK, declaredVersionRange, hpf]
      cases hv : (pf.version != "") with
      | false => simp [hv]
      | true =>
        cases hpv : pv cv.version with
        | none => cases hpr : pr pf.version <;> simp [hv, hpv, hpr]
        | some v => cases hpr : pr pf.version <;> simp [hv, hpv, hpr]

/-- The code's tiller check coincides with the tiller half of the amended
keep-predicate. -/
theorem checkTillerVersion_eq_tillerKeepOK {α : Type} (pr : String → Option (α → Bool))
    (pv : String → Option α) (sub : Option Subscription) (cv : ChartVersionRec) :
    checkTillerVersion pr pv sub cv = tillerKeepOK pr pv sub cv := by
  cases sub with
  | none => rfl
  | some s =>
    cases hpf : s.spec.packageFilter with
    | none => simp [checkTillerVersion, tillerKeepOK, declaredTillerRange, hpf]
    | some pf =>
      simp only [checkTillerVersion, tillerKeepOK, declaredTillerRange, hpf]
      cases hann : pf.annots with
      | none => simp
      | some anns =>
        simp only
        cases hfind : anns.find? (fun kv => kv.1 == "tillerVersion") with
        | none => simp [hfind]
        | some kv0 =>
          simp only [hfind, Option.map_some']
          cases ht : (cv.tillerVersion != "") with
          | false =>
            have ht2 : (cv.tillerVersion == "") = true := by
              simpa [bne] using ht
            simp [ht, ht2]
          | true =>
            have ht2 : (cv.tillerVersion == "") = false := by
              simpa [bne] using ht
            cases hprr : pr cv.tillerVersion with
            | none => simp [ht, ht2, hprr]
            | some rng => cases hpvv : pv kv0.2 <;> simp [ht, ht2, hprr, hpvv]

/-- C4 amended: a chart-version record is kept iff ((no version-range
constraint declared) OR (both sides parse AND the record's version
satisfies the declared range)) AND ((no tiller constraint declared) OR
(the record declares NO tiller-version — such records are KEPT) OR (the
record's tiller string parses as a semver RANGE, the declared filter value
parses as a version, and the range accepts that declared version)); a
parse failure on either side of an attempted comparison excludes only that
record, and every package left with zero records is removed from the
index. -/
theorem version_tiller_filter_semantics {α : Type} (pr : String → Option (α → Bool))
    (pv : String → Option α) (sub : Option Subscription) (cv : ChartVersionRec)
    (entries : Entries) :
    (checkTillerVersion pr pv sub cv && checkVersion pr pv sub cv) =
      amendedKeepsRecord pr pv sub cv ∧
    filterOnVersion pr pv sub entries =
      entries.filterMap (fun kv =>
        let kept := kv.2.filter (fun c => amendedKeepsRecord pr pv sub c)
        if kept.isEmpty then none else some (kv.1, kept)) := by
  have hpt : ∀ c, (checkTillerVersion pr pv sub c && checkVersion pr pv sub c) =
      amendedKeepsRecord pr pv sub c := by
    intro c
    rw [checkTillerVersion_eq_tillerKeepOK, checkVersion_eq_verKeepOK]
    rfl
  refine ⟨hpt cv, ?_⟩
  unfold filterOnVersion
  have hfun : ∀ kv : String × List ChartVersionRec,
      (let ncv := kv.2.filter (fun c => checkTillerVersion pr pv sub c && checkVersion pr pv sub c)
       if ncv.length > 0 then some (kv.1, ncv) else none) =
      (let kept := kv.2.filter (fun c => amendedKeepsRecord pr pv sub c)
       if kept.isEmpty then none else some (kv.1, kept)) := by
    intro kv
    have hfl : kv.2.filter (fun c => checkTillerVersion pr pv sub c && checkVersion pr pv sub c) =
        kv.2.filter (fun c => amendedKeepsRecord pr pv sub c) :=
      List.filter_congr (fun x _ => hpt x)
    simp only [hfl]
    cases kv.2.filter (fun c => amendedKeepsRecord pr pv sub c) with
    | nil => simp
    | cons a l => simp
  induction entries with
  | nil => rfl
  | cons e es ih => simp only [List.filterMap_cons, hfun e, ih]

/-- Counterexample to C4 as stated: under a declared tiller constraint (a
`tillerVersion` annotation on the package filter), a record that declares
NO tiller-version must be excluded per the claim's keep-predicate, yet
`filterOnVersion` keeps it — the code falls through to `return true` when
the record's tiller string is empty. -/
theorem tillerless_record_kept :
    claimKeepsRecord (α := Nat) (fun _ => none) (fun _ => none)
      (some ⟨⟨"demo", some ⟨"", some [("tillerVersion", "1.0.0")], none, none⟩⟩⟩)
      ⟨"c", "0.9.0", ""⟩ = false ∧
    filterOnVersion (α := Nat) (fun _ => none) (fun _ => none)
      (some ⟨⟨"demo", some ⟨"", some [("tillerVersion", "1.0.0")], none, none⟩⟩⟩)
      [("demo", [⟨"c", "0.9.0", ""⟩])] = [("demo", [⟨"c", "0.9.0", ""⟩])] := by
  exact ⟨rfl, rfl⟩

/-- C7: with a declared exact package name, the name filter keeps exactly
the entries whose key is that name; with no declared name the name filter
reports a hard error before the version pass runs and the index comes back
unchanged through `filterCharts`, which is what its caller keeps (it only
logs a warning); concretely, an index holding `demo` and `other` filtered
under declared name `demo` yields exactly the `demo` entry. -/
theorem name_filter_semantics {α : Type} (pr : String → Option (α → Bool))
    (pv : String → Option α) (sub : Subscription) (entries : Entries) :
    (sub.spec.package ≠ "" →
      removeNoMatchingName (some sub) entries =
        (entries.filter (fun kv => kv.1 == sub.spec.package), false)) ∧
    (sub.spec.package = "" → filterCharts pr pv (some sub) entries = (entries, true)) ∧
    filterCharts (α := Nat) (fun _ => none) (fun _ => none) (some ⟨⟨"demo", none⟩⟩)
      [("demo", [⟨"demo", "1.0.0", ""⟩]), ("other", [⟨"other", "1.0.0", ""⟩])] =
      ([("demo", [⟨"demo", "1.0.0", ""⟩])], false) := by
  refine ⟨?_, ?_, by decide⟩
  · intro h
    have hb : (sub.spec.package != "") = true := bne_iff_ne.mpr h
    simp [removeNoMatchingName, hb]
  · intro h
    have hb : (sub.spec.package != "") = false := by simp [bne, h]
    simp [filterCharts, removeNoMatchingName, hb]

/-- Witness for `name_filter_semantics`: the name-declared conclusion at
name `x` over a two-entry index, and the no-name conclusion over the same
index. -/
theorem name_filter_semantics_witness :
    removeNoMatchingName (some ⟨⟨"x", none⟩⟩) [("x", []), ("y", [])] =
      ([("x", []), ("y", [])].filter (fun kv => kv.1 == "x"), false) ∧
    filterCharts (α := Nat) (fun _ => none) (fun _ => none) (some ⟨⟨"", none⟩⟩)
      [("x", []), ("y", [])] = ([("x", []), ("y", [])], true) :=
  ⟨(name_filter_semantics (α := Nat) (fun _ => none) (fun _ => none)
      ⟨⟨"x", none⟩⟩ [("x", []), ("y", [])]).1 (by decide),
    (name_filter_semantics (α := Nat) (fun _ => none) (fun _ => none)
      ⟨⟨"", none⟩⟩ [("x", []), ("y", [])]).2.1 rfl⟩

/-- A string append with a non-empty left operand is non-empty. -/
theorem append_ne_empty_left (s t : String) (h : s ≠ "") : s ++ t ≠ "" := by
  intro he
  apply h
  have hd : s.data ++ t.data = [] := by
    have h2 : (s ++ t).data = [] := by rw [he]
    cases s
    cases t
    exact h2
  have h1 : s.data = [] := (List.append_eq_nil.mp hd).1
  cases s
  simp only at h1
  rw [show ("" : String) = ⟨[]⟩ from rfl, h1]

/-- C9: with a package filter configured, `checkFilters` accepts a resource
iff the exact-name match (vacuous when no name is declared), the
label-selector check, and the annotation equality map all pass — a
conjunction evaluated name first, labels second, annotations last, the
first failing predicate returning its message; and concretely a resource
that satisfies the label selector but mismatches one required annotation is
rejected, while changing only that annotation to the required value makes
it accepted. -/
theorem checkFilters_conjunctive (lc : Option String → List (String × String) → Bool)
    (pkg : String) (pf : PackageFilter) (rsc : Rsc) :
    ((checkFilters lc pkg pf rsc = "") ↔
      ((pkg = "" ∨ pkg = rsc.name) ∧ lc pf.labelSelector rsc.labels = true ∧
        ∀ kv ∈ pf.annots.getD [], lookupD rsc.annots kv.1 = kv.2)) ∧
    checkFilters (fun _ _ => true) "" ⟨"", some [("k", "v")], none, none⟩
      ⟨"r", [], [("k", "w")]⟩ ≠ "" ∧
    checkFilters (fun _ _ => true) "" ⟨"", some [("k", "v")], none, none⟩
      ⟨"r", [], [("k", "v")]⟩ = "" := by
  refine ⟨?_, by decide, by decide⟩
  cases hn : (pkg != "" && pkg != rsc.name) with
  | true =>
    have hmsg : ("Name does not match, skiping:" ++ pkg ++ "|" ++ rsc.name) ≠ "" :=
      append_ne_empty_left _ _ (append_ne_empty_left _ _
        (append_ne_empty_left _ _ (by decide)))
    have hco : ¬(pkg = "" ∨ pkg = rsc.name) := by
      rw [Bool.and_eq_true] at hn
      have h1 := bne_iff_ne.mp hn.1
      have h2 := bne_iff_ne.mp hn.2
      rintro (h | h)
      · exact h1 h
      · exact h2 h
    have hcf : checkFilters lc pkg pf rsc =
        "Name does not match, skiping:" ++ pkg ++ "|" ++ rsc.name := by
      simp [checkFilters, hn]
    rw [hcf]
    exact iff_of_false hmsg (fun h => hco h.1)
  | false =>
    have hor : pkg = "" ∨ pkg = rsc.name := by
      by_cases h1 : pkg = ""
      · exact Or.inl h1
      · by_cases h2 : pkg = rsc.name
        · exact Or.inr h2
        · exfalso
          have hb : (pkg != "" && pkg != rsc.name) = true := by
            rw [bne_iff_ne.mpr h1, bne_iff_ne.mpr h2]
            rfl
          rw [hb] at hn
          cases hn
    cases hl : lc pf.labelSelector rsc.labels with
    | false =>
      have hmsg : ("Failed to pass label check on resource " ++ rsc.name) ≠ "" :=
        append_ne_empty_left _ _ (by decide)
      have hcf : checkFilters lc pkg pf rsc =
          "Failed to pass label check on resource " ++ rsc.name := by
        simp [checkFilters, hn, hl]
      rw [hcf]
      exact iff_of_false hmsg (fun h => Bool.noConfusion h.2.1)
    | true =>
      cases hann : pf.annots with
      | none =>
        have hcf : checkFilters lc pkg pf rsc = "" := by
          simp [checkFilters, hn, hl, hann]
        rw [hcf]
        exact iff_of_true rfl ⟨hor, rfl, by simp⟩
      | some anns =>
        cases hall : anns.all (fun kv => lookupD rsc.annots kv.1 == kv.2) with
        | true =>
          have hfa : ∀ kv ∈ anns, lookupD rsc.annots kv.1 = kv.2 := by
            intro kv hkv
            exact beq_iff_eq.mp (List.all_eq_true.mp hall kv hkv)
          have hcf : checkFilters lc pkg pf rsc = "" := by
            simp [checkFilters, hn, hl, hann, hall]
          rw [hcf]
          simp only [Option.getD_some]
          exact iff_of_true trivial ⟨hor, trivial, hfa⟩
        | false =>
          have hmsg : ("Failed to pass annotation check to deployable " ++ rsc.name) ≠ "" :=
            append_ne_empty_left _ _ (by decide)
          have hnfa : ¬ ∀ kv ∈ anns, lookupD rsc.annots kv.1 = kv.2 := by
            intro hf
            have hall2 : anns.all (fun kv => lookupD rsc.annots kv.1 == kv.2) = true :=
              List.all_eq_true.mpr (fun kv hkv => beq_iff_eq.mpr (hf kv hkv))
            rw [hall2] at hall
            cases hall
          have hcf : checkFilters lc pkg pf rsc =
              "Failed to pass annotation check to deployable " ++ rsc.name := by
            simp [checkFilters, hn, hl, hann, hall]
          rw [hcf]
          simp only [Option.getD_some]
          exact iff_of_false hmsg (fun h => hnfa h.2.2)

end SubGit
